import Mathlib

/-!
Verification of the EM-Field-Visualizer core against its specification.

The development shallowly embeds the three source modules:
  - evaluation.py : the sandboxed expression evaluator over a restricted AST,
  - presets.py    : the preset density-function builders,
  - visualizer.py : density construction gate, grid sampling, point-charge
    superposition and the grid-integral dispatcher.

Numbers are modelled as exact rationals.  Where the source computes a square
root (numpy.linalg.norm of a vector) the development abstracts the square root
as an explicit function parameter, since no claim depends on its value; the
norm of a scalar is its absolute value, which is exact.  Results of the scipy
quadrature routines are likewise abstracted as explicit per-grid-point oracle
parameters: the claims about the integrator concern the dispatch and
short-circuit logic around the quadrature calls, not the numerics inside them.
-/

namespace Evaluation

/-- Binary-operator AST node classes.  The first six are the keys of the
ast_operations table in evaluation.py; mod and lshift stand for the operator
classes the Python ast module also produces but the table omits (the dictionary
lookup then raises KeyError, commented "Unsafe operation" in the source). -/
inductive BOp where
  | add | sub | mult | div | floorDiv | pow | mod | lshift
deriving DecidableEq

/-- Python expression AST nodes as evaluation.py dispatches over them: the
four handled classes (Num, Name, BinOp, Call) and representatives of the
classes that fall through to the final assert (UnaryOp, Compare, Attribute,
Subscript, Lambda).  A Call node records its callee expression, positional
arguments and whether any keyword arguments are present. -/
inductive PyExpr where
  | num (n : ℚ)
  | name (id : String)
  | binop (op : BOp) (left right : PyExpr)
  | call (func : PyExpr) (args : List PyExpr) (hasKeywords : Bool)
  | unaryOp (operand : PyExpr)
  | compare (left right : PyExpr)
  | attrNode (value : PyExpr) (attr : String)
  | subscript (value : PyExpr) (index : PyExpr)
  | lambdaE (body : PyExpr)

/-- Failure modes of _safe_eval: each corresponds to one exception site in
evaluation.py (KeyError on the variable table, KeyError on the operator
table or the fallthrough assert, the exponent-bound assert, the
no-keywords assert, the bare-name assert, KeyError on the function table,
an exception inside an applied function, and ZeroDivisionError from the
arithmetic operators themselves). -/
inductive EvalErr where
  | unsafeVariable
  | unsafeOperation
  | powBound
  | keywordArguments
  | unsafeFunctionDerivation
  | unsafeFunction
  | applicationError
  | zeroDivision
deriving DecidableEq

/-- Semantics of operator.pow on exact rationals.  Integer exponents are
exact (with the Python ZeroDivisionError on a negative power of zero); a
non-integer exponent produces a float power, abstracted by the parameter
fpow since its value is irrational in general. -/
def pow_op (fpow : ℚ → ℚ → ℚ) (a b : ℚ) : Except EvalErr ℚ :=
  if b.den = 1 then
    if b.num < 0 ∧ a = 0 then .error .zeroDivision
    else .ok (a ^ b.num)
  else .ok (fpow a b)

/-- The ast_operations table of evaluation.py: the six whitelisted operator
node classes mapped to their semantics; any other operator class misses the
table (KeyError in the source). -/
def ast_operations (fpow : ℚ → ℚ → ℚ) (op : BOp) : Option (ℚ → ℚ → Except EvalErr ℚ) :=
  match op with
  | .add => some (fun a b => .ok (a + b))
  | .sub => some (fun a b => .ok (a - b))
  | .mult => some (fun a b => .ok (a * b))
  | .div => some (fun a b => if b = 0 then .error .zeroDivision else .ok (a / b))
  | .floorDiv => some (fun a b => if b = 0 then .error .zeroDivision else .ok ((Int.floor (a / b) : ℤ) : ℚ))
  | .pow => some (pow_op fpow)
  | _ => none

mutual

/-- The recursive interpreter _safe_eval of evaluation.py.  Num returns the
literal; Name looks up the variable table; BinOp looks up the operator
table, evaluates both operands, guards Pow exponents below 100 and applies
the operator; Call asserts no keyword arguments, asserts the callee is a
bare Name, looks up the function table, evaluates the arguments
left-to-right and applies the function; every other node class fails. -/
def safe_eval_node (fpow : ℚ → ℚ → ℚ) (vars : String → Option ℚ)
    (funcs : String → Option (List ℚ → Option ℚ)) : PyExpr → Except EvalErr ℚ
  | .num n => .ok n
  | .name id =>
      match vars id with
      | some v => .ok v
      | none => .error .unsafeVariable
  | .binop op left right =>
      match ast_operations fpow op with
      | none => .error .unsafeOperation
      | some o =>
          match safe_eval_node fpow vars funcs left with
          | .error e => .error e
          | .ok l =>
              match safe_eval_node fpow vars funcs right with
              | .error e => .error e
              | .ok r =>
                  if op = .pow then
                    if r < 100 then o l r else .error .powBound
                  else o l r
  | .call f args kw =>
      if kw then .error .keywordArguments
      else
        match f with
        | .name fid =>
            match funcs fid with
            | none => .error .unsafeFunction
            | some g =>
                match safe_eval_args fpow vars funcs args with
                | .error e => .error e
                | .ok vals =>
                    match g vals with
                    | some r => .ok r
                    | none => .error .applicationError
        | _ => .error .unsafeFunctionDerivation
  | _ => .error .unsafeOperation

/-- Left-to-right evaluation of the positional arguments of a Call node (the list
comprehension in the Call branch of _safe_eval). -/
def safe_eval_args (fpow : ℚ → ℚ → ℚ) (vars : String → Option ℚ)
    (funcs : String → Option (List ℚ → Option ℚ)) : List PyExpr → Except EvalErr (List ℚ)
  | [] => .ok []
  | a :: rest =>
      match safe_eval_node fpow vars funcs a with
      | .error e => .error e
      | .ok v =>
          match safe_eval_args fpow vars funcs rest with
          | .error e => .error e
          | .ok vs => .ok (v :: vs)

end

/-- Membership test for the operator whitelist: exactly the six keys of the
ast_operations table. -/
def op_whitelisted : BOp → Bool
  | .add | .sub | .mult | .div | .floorDiv | .pow => true
  | _ => false

mutual

/-- The closed grammar the sandbox accepts: numeric literals, variable
references resolvable in the variable table, binary operations with a
whitelisted operator and safe operands, and calls of bare names present in
the function table with no keyword arguments and safe positional
arguments.  Every other node class is unsafe. -/
def node_safe (vars : String → Option ℚ)
    (funcs : String → Option (List ℚ → Option ℚ)) : PyExpr → Bool
  | .num _ => true
  | .name id => (vars id).isSome
  | .binop op left right =>
      op_whitelisted op && node_safe vars funcs left
        && node_safe vars funcs right
  | .call (.name fid) args false =>
      (funcs fid).isSome && args_safe vars funcs args
  | .call _ _ _ => false
  | _ => false

/-- All members of an argument list lie in the safe grammar. -/
def args_safe (vars : String → Option ℚ)
    (funcs : String → Option (List ℚ → Option ℚ)) : List PyExpr → Bool
  | [] => true
  | a :: rest => node_safe vars funcs a && args_safe vars funcs rest

end

end Evaluation

namespace Presets

/-- Position and offset vectors: components (x, y, z). -/
abbrev V3 := ℚ × ℚ × ℚ

/-- Runtime failures of the closures presets.py builds.  nameError models the
unbound name np inside the theta and phi lambdas (presets.py imports only
numpy.linalg, so calling either lambda raises NameError before any
arithmetic happens).  typeError models calling the None that get_variable
returns for an unrecognized variable name. -/
inductive CallErr where
  | nameError
  | typeError
deriving DecidableEq

/-- Closures over a position, taking arguments in the (z, y, x) order of the source and either producing a rational or raising. -/
abbrev VarFn := ℚ → ℚ → ℚ → Except CallErr ℚ

def PRESET_DELTA : ℤ := 0
def PRESET_HEAVISIDE : ℤ := 1
def PRESET_REVERSE_HEAVISIDE : ℤ := 2

/-- Euclidean norm of three components; the square root inside
numpy.linalg.norm is kept abstract as the parameter sq applied to the sum
of squares. -/
def norm3 (sq : ℚ → ℚ) (x y z : ℚ) : ℚ := sq (x ^ 2 + y ^ 2 + z ^ 2)

/-- Euclidean norm of two components, square root abstracted as sq. -/
def norm2 (sq : ℚ → ℚ) (x y : ℚ) : ℚ := sq (x ^ 2 + y ^ 2)

/-- get_variable of presets.py: the if/elif chain over the seven variable
names.  x, y, z project the position; r and rc are the spherical and
cylindrical radii; the theta and phi lambdas reference np.acos, but
presets.py imports only numpy.linalg as nl, so np is unbound and calling
either lambda raises NameError (the callee np.acos is evaluated before its
argument, so nothing else runs first).  Any other name falls off the chain
and yields None. -/
def get_variable (sq : ℚ → ℚ) (var : String) : Option VarFn :=
  if var = "x" then some (fun _z _y x => .ok x)
  else if var = "y" then some (fun _z y _x => .ok y)
  else if var = "z" then some (fun z _y _x => .ok z)
  else if var = "r" then some (fun z y x => .ok (norm3 sq x y z))
  else if var = "rc" then some (fun _z y x => .ok (norm2 sq x y))
  else if var = "theta" then some (fun _z _y _x => .error .nameError)
  else if var = "phi" then some (fun _z _y _x => .error .nameError)
  else none

/-- offset_var of presets.py.  A configured offset is a list, which compares
unequal to the default 0, so the source wraps whatever var is (even None)
in a lambda translating the position by the offset; with no offset
configured it returns var unchanged.  none stands for the default 0. -/
def offset_var (var : Option VarFn) (offset : Option V3) : Option VarFn :=
  match offset with
  | some o =>
      some (fun z y x =>
        match var with
        | some f => f (z + o.2.2) (y + o.2.1) (x + o.1)
        | none => .error .typeError)
  | none => var

/-- Calling a possibly-None variable function, as Python does: calling None raises
TypeError at evaluation time. -/
def call_opt (var : Option VarFn) : VarFn :=
  fun z y x =>
    match var with
    | some f => f z y x
    | none => .error .typeError

/-- delta of presets.py: the built closure evaluates the offset-adjusted
variable and returns 100 when its distance to the target value is strictly
below the tolerance, else 0.  numpy.linalg.norm of the scalar difference
is its absolute value, which is exact. -/
def delta (sq : ℚ → ℚ) (varName : String) (value : ℚ) (offset : Option V3)
    (tolerance : ℚ) : VarFn :=
  let var := offset_var (get_variable sq varName) offset
  fun z y x =>
    (call_opt var z y x).map (fun v => if |v - value| < tolerance then (100 : ℚ) else 0)

/-- heaviside of presets.py: the built closure compares the offset-adjusted
variable against the target value, strictly below when reverse and strictly
above otherwise.  The Python closure returns a bool, which arithmetic
treats as 1 or 0. -/
def heaviside (sq : ℚ → ℚ) (varName : String) (value : ℚ) (offset : Option V3)
    (reverse : Bool) : VarFn :=
  let var := offset_var (get_variable sq varName) offset
  if reverse then
    fun z y x => (call_opt var z y x).map (fun v => if v < value then (1 : ℚ) else 0)
  else
    fun z y x => (call_opt var z y x).map (fun v => if v > value then (1 : ℚ) else 0)

/-- Preset density configuration as read from the charge-densities entry:
func is the preset code, var the variable name, value the target value;
scale, offset and tol are optional with defaults 1, 0 and 0.15. -/
structure DensityCfg where
  func : ℤ
  var : String
  value : ℚ
  scale : Option ℚ
  offset : Option V3
  tol : Option ℚ

/-- get_preset of presets.py: reads the configuration with its defaults,
builds the delta closure for func = 0 or the heaviside closure for
func = 1 or 2 (reversed exactly when func = 2) and multiplies the result
by scale; any other func code falls off the chain and yields None. -/
def get_preset (sq : ℚ → ℚ) (density_func : DensityCfg) : Option VarFn :=
  let scale := density_func.scale.getD 1
  let func := density_func.func
  let var := density_func.var
  let val := density_func.value
  let offset := density_func.offset
  let tolerance := density_func.tol.getD (3 / 20)
  if func = PRESET_DELTA then
    let d := delta sq var val offset tolerance
    some (fun z y x => (d z y x).map (fun r => scale * r))
  else if func = PRESET_HEAVISIDE ∨ func = PRESET_REVERSE_HEAVISIDE then
    let h := heaviside sq var val offset (func = PRESET_REVERSE_HEAVISIDE)
    some (fun z y x => (h z y x).map (fun r => scale * r))
  else none

end Presets

namespace Visualizer

open Presets (V3)

/-- construct_function of visualizer.py.  At safety level 0 it raises; at
safety level 1 the branch is a bare pass; at any other level the body
defines a local closure func (which would evaluate the expression with the
builtin eval, not the sandboxed evaluator) but contains no return
statement, so the Python function returns None on every path that does not
raise.  The result type records the density function a caller would need;
no branch ever produces one. -/
def construct_function (safety : ℤ) (function : String) :
    Except String (Option (ℚ → ℚ → ℚ → ℚ)) :=
  if safety = 0 then .error ("Cannot construct function at safety level 0")
  else .ok none

/-- Componentwise difference of position vectors ((x.T - charge[1:]).T in
the source, per grid point). -/
def vsub (a b : V3) : V3 := (a.1 - b.1, a.2.1 - b.2.1, a.2.2 - b.2.2)

/-- Contribution of one charge at one grid point inside efield_charges:
charge[0] * s / (norm(s) ** 3 + 1e-6) with s = X - position, applied
componentwise.  The square root inside np.linalg.norm is abstracted as the
parameter nrm applied to the difference vector. -/
def coulomb_term (nrm : V3 → ℚ) (X : V3) (charge : ℚ × V3) : V3 :=
  let s := vsub X charge.2
  let d := nrm s ^ 3 + 1 / 1000000
  (charge.1 * s.1 / d, charge.1 * s.2.1 / d, charge.1 * s.2.2 / d)

/-- efield_charges of visualizer.py at a single grid point X: E starts as
zeros and the loop adds the contribution of each charge in turn. -/
def efield_charges (nrm : V3 → ℚ) (charges : List (ℚ × V3)) (X : V3) : V3 :=
  charges.foldl (fun E charge => E + coulomb_term nrm X charge) 0

/-- The Python int() conversion applied to a rational: truncation toward zero. -/
def int_trunc (q : ℚ) : ℤ :=
  if 0 ≤ q then Int.floor q else -Int.floor (-q)

/-- np.linspace with endpoint=True: num samples from lo to hi inclusive.
A single sample is lo alone; otherwise sample i is lo + i * (hi - lo) /
(num - 1), so the last sample is exactly hi whenever num is at least 2. -/
def linspace (lo hi : ℚ) (num : ℕ) : List ℚ :=
  if num = 1 then [lo]
  else (List.range num).map (fun (i : ℕ) => lo + (hi - lo) * (i : ℚ) / ((num : ℚ) - 1))

/-- np.linspace with a possibly negative requested sample count, which
raises ValueError. -/
def linspaceZ (lo hi : ℚ) (num : ℤ) : Option (List ℚ) :=
  if num < 0 then none else some (linspace lo hi num.toNat)

/-- Component i of a vector of per-axis values. -/
def v3get (v : V3) (i : Fin 3) : ℚ :=
  if i = 0 then v.1 else if i = 1 then v.2.1 else v.2.2

/-- The axis-construction loop of visualize_fields: the view-plane axis ax3
gets the single-element sequence [Z]; every other axis i gets
np.linspace(x_min, x_max, resolution * int(x_max - x_min)) where x_min
and x_max are the plot bounds for axis i widened by the margin for axis
i.  Note the sample count truncates the extent to an integer before
multiplying by the resolution. -/
def sample_grid (bmin bmax margins : V3) (resolution : ℤ) (ax3 : Fin 3) (Z : ℚ)
    (i : Fin 3) : Option (List ℚ) :=
  if i = ax3 then some [Z]
  else
    let x_min := v3get bmin i - v3get margins i
    let x_max := v3get bmax i + v3get margins i
    linspaceZ x_min x_max (resolution * int_trunc (x_max - x_min))

/-- grid_integral of visualize_fields, per grid point.  The integrand, the
bounds and the extra arguments are fixed at each call site, so the scipy
quadrature results tplquad, dblquad and quad are abstracted as oracles
giving the value of the corresponding integral as a function of the grid
point (z, y, x) that np.vectorize supplies pointwise.  Only the dim = 3
branch short-circuits points where rho is nonzero to 0; the dim = 2 and
dim = 1 branches always return the quadrature value, and any other dim
falls off the chain and yields None. -/
def grid_integral (rho : ℚ → ℚ → ℚ → ℚ)
    (tplquadRes dblquadRes quadRes : ℚ → ℚ → ℚ → ℚ) (dim : ℤ) :
    Option (ℚ → ℚ → ℚ → ℚ) :=
  if dim = 3 then
    some (fun z y x => if rho z y x = 0 then tplquadRes z y x else 0)
  else if dim = 2 then
    some (fun z y x => dblquadRes z y x)
  else if dim = 1 then
    some (fun z y x => quadRes z y x)
  else none

end Visualizer

namespace Evaluation

@[simp] theorem isOk_error {ε α : Type} (e : ε) : (Except.error e : Except ε α).isOk = false := rfl

@[simp] theorem isOk_ok {ε α : Type} (v : α) : (Except.ok v : Except ε α).isOk = true := rfl

mutual

/-- Soundness of the sandbox on a single node: a successful evaluation means
the node lies in the whitelisted grammar (and so, recursively, does every
node reachable from it). -/
theorem node_sound (fpow : ℚ → ℚ → ℚ) (vars : String → Option ℚ)
    (funcs : String → Option (List ℚ → Option ℚ)) (e : PyExpr)
    (h : (safe_eval_node fpow vars funcs e).isOk = true) :
    node_safe vars funcs e = true := by
  match e with
  | .num n => simp [node_safe]
  | .name id =>
      unfold safe_eval_node at h
      cases hv : vars id with
      | none => simp [hv] at h
      | some v => simp [node_safe, hv]
  | .binop op l r =>
      unfold safe_eval_node at h
      cases hop : ast_operations fpow op with
      | none => simp [hop] at h
      | some o =>
          cases hl : safe_eval_node fpow vars funcs l with
          | error e1 => simp [hop, hl] at h
          | ok lv =>
              cases hr : safe_eval_node fpow vars funcs r with
              | error e2 => simp [hop, hl, hr] at h
              | ok rv =>
                  have sl := node_sound fpow vars funcs l (by rw [hl]; rfl)
                  have sr := node_sound fpow vars funcs r (by rw [hr]; rfl)
                  have hw : op_whitelisted op = true := by
                    cases op <;> simp_all [ast_operations, op_whitelisted]
                  simp [node_safe, hw, sl, sr]
  | .call f args kw =>
      unfold safe_eval_node at h
      cases kw with
      | true => simp at h
      | false =>
          cases f with
          | name fid =>
              cases hf : funcs fid with
              | none => simp [hf] at h
              | some g =>
                  cases ha : safe_eval_args fpow vars funcs args with
                  | error e3 => simp [hf, ha] at h
                  | ok vals =>
                      have sa := args_sound fpow vars funcs args (by rw [ha]; rfl)
                      simp [node_safe, hf, sa]
          | num n => simp at h
          | binop op l r => simp at h
          | call f2 a2 k2 => simp at h
          | unaryOp o2 => simp at h
          | compare l r => simp at h
          | attrNode v a2 => simp at h
          | subscript v i2 => simp at h
          | lambdaE b => simp at h
  | .unaryOp o1 => unfold safe_eval_node at h; simp at h
  | .compare l r => unfold safe_eval_node at h; simp at h
  | .attrNode v a1 => unfold safe_eval_node at h; simp at h
  | .subscript v i1 => unfold safe_eval_node at h; simp at h
  | .lambdaE b => unfold safe_eval_node at h; simp at h

/-- Soundness of the sandbox on an argument list: successful evaluation of
all arguments means each lies in the whitelisted grammar. -/
theorem args_sound (fpow : ℚ → ℚ → ℚ) (vars : String → Option ℚ)
    (funcs : String → Option (List ℚ → Option ℚ)) (l : List PyExpr)
    (h : (safe_eval_args fpow vars funcs l).isOk = true) :
    args_safe vars funcs l = true := by
  match l with
  | [] => simp [args_safe]
  | a :: rest =>
      unfold safe_eval_args at h
      cases ha : safe_eval_node fpow vars funcs a with
      | error e1 => simp [ha] at h
      | ok v =>
          cases hr : safe_eval_args fpow vars funcs rest with
          | error e2 => simp [ha, hr] at h
          | ok vs =>
              have s1 := node_sound fpow vars funcs a (by rw [ha]; rfl)
              have s2 := args_sound fpow vars funcs rest (by rw [hr]; rfl)
              simp [args_safe, s1, s2]

end

end Evaluation

namespace Visualizer

/-- Sample count of np.linspace for any count other than the special-cased 1. -/
theorem linspace_length (lo hi : ℚ) (n : ℕ) (h : n ≠ 1) : (linspace lo hi n).length = n := by
  unfold linspace
  rw [if_neg h, List.length_map, List.length_range]

/-- The first linspace sample is the lower endpoint. -/
theorem linspace_head (lo hi : ℚ) (n : ℕ) (h : 0 < n) : (linspace lo hi n).head? = some lo := by
  unfold linspace
  by_cases h1 : n = 1
  · simp [h1]
  · obtain ⟨m, rfl⟩ : ∃ m, n = m + 1 := ⟨n - 1, by omega⟩
    simp [h1, List.range_succ_eq_map]

/-- The last linspace sample is exactly the upper endpoint once there are at
least two samples. -/
theorem linspace_getLast (lo hi : ℚ) (n : ℕ) (h : 2 ≤ n) : (linspace lo hi n).getLast? = some hi := by
  obtain ⟨m, rfl⟩ : ∃ m, n = m + 1 := ⟨n - 1, by omega⟩
  have h1 : m + 1 ≠ 1 := by omega
  have hm : (m : ℚ) ≠ 0 := by
    have hz : m ≠ 0 := by omega
    exact_mod_cast hz
  unfold linspace
  rw [if_neg h1, List.range_succ, List.map_append]
  rw [List.getLast?_append]
  simp only [List.map_cons, List.map_nil, List.getLast?_singleton, Option.or_some]
  congr 1
  push_cast
  rw [add_sub_cancel_right, mul_div_assoc, div_self hm, mul_one]
  ring

/-- Accumulating a componentwise sum over a list starting from acc yields acc
plus the sum of the individual terms. -/
theorem foldl_add_terms (f : (ℚ × Presets.V3) → Presets.V3) (l : List (ℚ × Presets.V3))
    (acc : Presets.V3) :
    l.foldl (fun E c => E + f c) acc = acc + (l.map f).sum := by
  induction l generalizing acc with
  | nil => simp
  | cons a t ih => rw [List.foldl_cons, ih, List.map_cons, List.sum_cons, add_assoc]

end Visualizer

open Evaluation Presets Visualizer

/-- C1: the claim reads that at safetyLevel 2 the builder yields a usable
callable equal to the sandboxed evaluation of the expression.  The source
contradicts it: construct_function defines its inner closure (which would
call the builtin eval, not the sandboxed safe_eval the module imports) but
never returns it, so for every expression the builder returns None and no
callable at all is produced. -/
theorem claim_C1_no_callable_at_level2 :
    ∀ exprSrc : String, construct_function 2 exprSrc = .ok none := by
  intro exprSrc
  unfold construct_function
  norm_num

/-- C7: building an expression-based density at safety level 0 always raises,
whatever the expression is. -/
theorem claim_C7_safety_zero_fatal :
    ∀ exprSrc : String,
      construct_function 0 exprSrc = .error ("Cannot construct function at safety level 0") := by
  intro exprSrc
  unfold construct_function
  norm_num

/-- C8: the point-charge contributor returns, at every grid point X, the sum
over charges (q, p) of q * (X - p) / (norm(X - p) ^ 3 + 1e-6), and in
particular the exact zero vector for an empty charge list. -/
theorem claim_C8_point_charge_superposition :
    (∀ (nrm : V3 → ℚ) (charges : List (ℚ × V3)) (X : V3),
        efield_charges nrm charges X = (charges.map (coulomb_term nrm X)).sum) ∧
    (∀ (nrm : V3 → ℚ) (X : V3), efield_charges nrm [] X = 0) := by
  constructor
  · intro nrm charges X
    unfold efield_charges
    rw [foldl_add_terms, zero_add]
  · intro nrm X
    simp [efield_charges]

/-- C3 counterexample: with the 1D quadrature path selected, a density that
is 1 everywhere (so nonzero at the grid point (0, 0, 0)) still contributes
the quadrature value 1, not 0: the short circuit is absent outside the 3D
branch, refuting the claim that nonzero-density points are short-circuited
regardless of the selected quadrature dimension. -/
theorem claim_C3_counterexample :
    (grid_integral (fun _ _ _ => 1) (fun _ _ _ => 1) (fun _ _ _ => 1) (fun _ _ _ => 1) 1).map
        (fun f => f 0 0 0) = some 1
      ∧ (1 : ℚ) ≠ 0 := by
  constructor
  · unfold grid_integral
    norm_num
  · norm_num

/-- C3 amended: only the 3D quadrature path short-circuits grid points with
nonzero density to 0; the 2D and 1D paths return the quadrature value
unconditionally. -/
theorem claim_C3_amended_short_circuit_only_3d :
    (∀ (rho tpl dbl qd : ℚ → ℚ → ℚ → ℚ) (z y x : ℚ), rho z y x ≠ 0 →
        (grid_integral rho tpl dbl qd 3).map (fun f => f z y x) = some 0) ∧
    (∀ (rho tpl dbl qd : ℚ → ℚ → ℚ → ℚ) (z y x : ℚ), rho z y x = 0 →
        (grid_integral rho tpl dbl qd 3).map (fun f => f z y x) = some (tpl z y x)) ∧
    (∀ (rho tpl dbl qd : ℚ → ℚ → ℚ → ℚ) (z y x : ℚ),
        (grid_integral rho tpl dbl qd 2).map (fun f => f z y x) = some (dbl z y x)) ∧
    (∀ (rho tpl dbl qd : ℚ → ℚ → ℚ → ℚ) (z y x : ℚ),
        (grid_integral rho tpl dbl qd 1).map (fun f => f z y x) = some (qd z y x)) := by
  refine ⟨?_, ?_, ?_, ?_⟩
  · intro rho tpl dbl qd z y x h
    unfold grid_integral
    norm_num [h]
  · intro rho tpl dbl qd z y x h
    unfold grid_integral
    norm_num [h]
  · intro rho tpl dbl qd z y x
    unfold grid_integral
    norm_num
  · intro rho tpl dbl qd z y x
    unfold grid_integral
    norm_num

/-- C4 counterexample: the claim computes the sample count as resolution
times the extent, rounded; the code truncates the extent to an integer
first and then multiplies.  For bounds 0 to 3/2 on axis 0 with zero
margins and resolution 2, the claim predicts round(2 * (3/2)) = 3 samples
while the code produces 2 * int(3/2) = 2. -/
theorem claim_C4_counterexample :
    (sample_grid (0, 0, 0) (3 / 2, 0, 0) (0, 0, 0) 2 2 5 0).map List.length = some 2
      ∧ (2 : ℤ) ≠ round ((2 : ℚ) * (3 / 2)) := by
  constructor
  · unfold sample_grid linspaceZ v3get
    norm_num [int_trunc]
    rw [if_neg (by decide)]
    refine ⟨_, rfl, ?_⟩
    rw [show Int.toNat 2 = 2 from rfl]
    exact linspace_length _ _ 2 (by norm_num)
  · norm_num [round_eq]

/-- C4 amended: the view-plane axis gets exactly [sliceCoordinate]; every
other axis i is np.linspace from min[i] - margin[i] to max[i] + margin[i]
with sample count resolution * int(extent), where int() truncates the
extent toward zero before the multiplication (not a rounding of
resolution * extent); linspace with at least two samples starts exactly at
the lower bound and ends exactly at the upper bound; and on the instance
from the specification (min = 0s, max = 10s, margins = 1s, resolution = 2, view-plane
axis 2, slice coordinate 5) axis 2 is exactly [5] while axes 0 and 1 run
from -1 to 11 with 24 samples. -/
theorem claim_C4_amended_grid_axes :
    (∀ (bmin bmax margins : V3) (res : ℤ) (ax3 : Fin 3) (Z : ℚ),
        sample_grid bmin bmax margins res ax3 Z ax3 = some [Z]) ∧
    (∀ (bmin bmax margins : V3) (res : ℤ) (ax3 : Fin 3) (Z : ℚ) (i : Fin 3), i ≠ ax3 →
        sample_grid bmin bmax margins res ax3 Z i =
          linspaceZ (v3get bmin i - v3get margins i) (v3get bmax i + v3get margins i)
            (res * int_trunc ((v3get bmax i + v3get margins i) - (v3get bmin i - v3get margins i)))) ∧
    (∀ (lo hi : ℚ) (n : ℕ), 2 ≤ n →
        (linspace lo hi n).length = n ∧ (linspace lo hi n).head? = some lo ∧
          (linspace lo hi n).getLast? = some hi) ∧
    (sample_grid (0, 0, 0) (10, 10, 10) (1, 1, 1) 2 2 5 2 = some [5] ∧
      sample_grid (0, 0, 0) (10, 10, 10) (1, 1, 1) 2 2 5 0 = some (linspace (-1) 11 24) ∧
      sample_grid (0, 0, 0) (10, 10, 10) (1, 1, 1) 2 2 5 1 = some (linspace (-1) 11 24) ∧
      (linspace (-1 : ℚ) 11 24).length = 24 ∧ (linspace (-1 : ℚ) 11 24).head? = some (-1) ∧
      (linspace (-1 : ℚ) 11 24).getLast? = some 11) := by
  refine ⟨?_, ?_, ?_, ?_, ?_, ?_, ?_, ?_, ?_⟩
  · intro bmin bmax margins res ax3 Z
    unfold sample_grid
    rw [if_pos rfl]
  · intro bmin bmax margins res ax3 Z i hi
    unfold sample_grid
    rw [if_neg hi]
  · intro lo hi n hn
    exact ⟨linspace_length lo hi n (by omega), linspace_head lo hi n (by omega),
      linspace_getLast lo hi n hn⟩
  · unfold sample_grid
    rw [if_pos rfl]
  · unfold sample_grid linspaceZ v3get
    rw [if_neg (by decide)]
    norm_num [int_trunc]
    rfl
  · unfold sample_grid linspaceZ v3get
    rw [if_neg (by decide)]
    norm_num [int_trunc]
    rfl
  · exact linspace_length _ _ 24 (by norm_num)
  · exact linspace_head _ _ 24 (by norm_num)
  · exact linspace_getLast _ _ 24 (by norm_num)

/-- C2 counterexample: the claim reads that within tolerance the delta preset
returns the scale; the source multiplies the scale into the hard-coded
100 of delta, so a delta preset with scale 1, target 0 and tolerance 1/10 evaluated
where the variable x is 1/20 (inside the tolerance band) yields 100, not
the scale 1. -/
theorem claim_C2_counterexample :
    (get_preset (fun q => q) ⟨0, "x", 0, some 1, none, some (1 / 10)⟩).map
        (fun f => f 0 0 (1 / 20)) = some (.ok 100)
      ∧ |(1 / 20 : ℚ) - 0| < 1 / 10 ∧ (100 : ℚ) ≠ 1 := by
  refine ⟨?_, ?_, by norm_num⟩
  · norm_num [get_preset, PRESET_DELTA, delta, offset_var, get_variable, call_opt,
      Option.getD, Except.map, abs]
  · rw [sub_zero, abs_of_pos (by norm_num : (0 : ℚ) < 1 / 20)]
    norm_num

/-- C2 amended: for every delta preset whose offset-adjusted variable
evaluates to w at a position, the built density returns exactly
scale * 100 when the distance from w to the target value is strictly
below the tolerance, and exactly 0 otherwise. -/
theorem claim_C2_amended_delta (sq : ℚ → ℚ) (varName : String) (value scale tol : ℚ)
    (offset : Option V3) (z y x w : ℚ)
    (hv : call_opt (offset_var (get_variable sq varName) offset) z y x = .ok w) :
    (get_preset sq ⟨0, varName, value, some scale, offset, some tol⟩).map (fun f => f z y x)
      = some (.ok (if |w - value| < tol then scale * 100 else 0)) := by
  have hd : delta sq varName value offset tol z y x
      = .ok (if |w - value| < tol then (100 : ℚ) else 0) := by
    unfold delta
    rw [hv]
    rfl
  have hp : get_preset sq ⟨0, varName, value, some scale, offset, some tol⟩
      = some (fun z1 y1 x1 => (delta sq varName value offset tol z1 y1 x1).map
          (fun r => scale * r)) := rfl
  rw [hp]
  simp only [Option.map]
  rw [hd]
  by_cases hc : |w - value| < tol
  · simp [hc, Except.map]
  · simp [hc, Except.map]

/-- C2 witness: a delta preset on variable x with target 3, scale 2 and
tolerance 1/10, evaluated where x is 61/20 (distance 1/20 from the
target), returns 2 * 100 = 200. -/
theorem claim_C2_witness :
    (get_preset (fun q => q) ⟨0, "x", 3, some 2, none, some (1 / 10)⟩).map
        (fun f => f 0 0 (61 / 20)) = some (.ok 200) := by
  have h := claim_C2_amended_delta (fun q => q) ("x") 3 2 (1 / 10) none 0 0 (61 / 20)
    (61 / 20) rfl
  rw [h]
  have habs : |(61 / 20 : ℚ) - 3| = 1 / 20 := by
    rw [show (61 / 20 : ℚ) - 3 = 1 / 20 by norm_num]
    exact abs_of_pos (by norm_num)
  rw [habs, if_pos (by norm_num)]
  norm_num

/-- C5: the sandbox succeeds only on the whitelisted grammar: whenever
_safe_eval returns a value, the expression consists solely of numeric
literals, variables present in the supplied mapping, binary operations
among the six whitelisted operators and calls of bare names present in
the supplied function mapping with no keyword arguments; contrapositively,
any expression containing an unhandled node class, an undefined variable,
a non-whitelisted operator or a non-whitelisted or non-bare-name callee
fails. -/
theorem claim_C5_sandbox_whitelist_sound (fpow : ℚ → ℚ → ℚ) (vars : String → Option ℚ)
    (funcs : String → Option (List ℚ → Option ℚ)) (e : PyExpr)
    (h : (safe_eval_node fpow vars funcs e).isOk = true) :
    node_safe vars funcs e = true :=
  node_sound fpow vars funcs e h

/-- C5 witness: the expression x * 3 with x mapped to 2 evaluates
successfully, and the soundness theorem applied to that evaluation
certifies it lies in the whitelisted grammar. -/
theorem claim_C5_witness :
    (safe_eval_node (fun _ _ => 0) (fun s => if s = "x" then some 2 else none) (fun _ => none)
        (.binop .mult (.name ("x")) (.num 3))).isOk = true
      ∧ node_safe (fun s => if s = "x" then some 2 else none) (fun _ => none)
          (.binop .mult (.name ("x")) (.num 3)) = true := by
  have hev : (safe_eval_node (fun _ _ => 0) (fun s => if s = "x" then some 2 else none)
      (fun _ => none) (.binop .mult (.name ("x")) (.num 3))).isOk = true := by
    norm_num [safe_eval_node, ast_operations]
  exact ⟨hev, claim_C5_sandbox_whitelist_sound (fun _ _ => 0)
    (fun s => if s = "x" then some 2 else none) (fun _ => none)
    (.binop .mult (.name ("x")) (.num 3)) hev⟩

/-- C6: for a power node whose operands evaluate successfully, the evaluator
fails with the exponent-bound error whenever the evaluated exponent is not
strictly below 100 and otherwise applies the power operator; in
particular x ** 1000 with x mapped to 2 fails. -/
theorem claim_C6_pow_exponent_guard :
    (∀ (fpow : ℚ → ℚ → ℚ) (vars : String → Option ℚ)
        (funcs : String → Option (List ℚ → Option ℚ)) (l r : PyExpr) (a b : ℚ),
        safe_eval_node fpow vars funcs l = .ok a →
        safe_eval_node fpow vars funcs r = .ok b →
        safe_eval_node fpow vars funcs (.binop .pow l r)
          = if b < 100 then pow_op fpow a b else .error .powBound) ∧
    safe_eval_node (fun _ _ => 0) (fun s => if s = "x" then some 2 else none) (fun _ => none)
        (.binop .pow (.name ("x")) (.num 1000)) = .error .powBound := by
  constructor
  · intro fpow vars funcs l r a b hl hr
    unfold safe_eval_node
    rw [hl, hr]
    simp [ast_operations]
  · norm_num [safe_eval_node, ast_operations]

/-- C9: Heaviside (func 1) and Reverse-Heaviside (func 2) presets built with
identical variable, target value, offset and scale are complementary
wherever the offset-adjusted variable value w differs from the target:
one returns exactly scale and the other exactly 0. -/
theorem claim_C9_heaviside_complementary (sq : ℚ → ℚ) (varName : String)
    (value scale : ℚ) (offset : Option V3) (z y x w : ℚ)
    (hv : call_opt (offset_var (get_variable sq varName) offset) z y x = .ok w)
    (hw : w ≠ value) :
    (((get_preset sq ⟨1, varName, value, some scale, offset, none⟩).map (fun f => f z y x)
          = some (.ok scale)) ∧
        ((get_preset sq ⟨2, varName, value, some scale, offset, none⟩).map (fun f => f z y x)
          = some (.ok 0))) ∨
    (((get_preset sq ⟨1, varName, value, some scale, offset, none⟩).map (fun f => f z y x)
          = some (.ok 0)) ∧
        ((get_preset sq ⟨2, varName, value, some scale, offset, none⟩).map (fun f => f z y x)
          = some (.ok scale))) := by
  have hp1 : get_preset sq ⟨1, varName, value, some scale, offset, none⟩
      = some (fun z1 y1 x1 => (heaviside sq varName value offset false z1 y1 x1).map
          (fun r => scale * r)) := rfl
  have hp2 : get_preset sq ⟨2, varName, value, some scale, offset, none⟩
      = some (fun z1 y1 x1 => (heaviside sq varName value offset true z1 y1 x1).map
          (fun r => scale * r)) := rfl
  have hh1 : heaviside sq varName value offset false z y x
      = .ok (if w > value then (1 : ℚ) else 0) := by
    unfold heaviside
    rw [if_neg (by norm_num)]
    rw [hv]
    rfl
  have hh2 : heaviside sq varName value offset true z y x
      = .ok (if w < value then (1 : ℚ) else 0) := by
    unfold heaviside
    rw [if_pos rfl]
    rw [hv]
    rfl
  rw [hp1, hp2]
  simp only [Option.map]
  rw [hh1, hh2]
  rcases lt_or_gt_of_ne hw with hlt | hgt
  · right
    rw [if_neg (by exact not_lt.mpr (le_of_lt hlt)), if_pos hlt]
    constructor
    · simp [Except.map]
    · simp [Except.map]
  · left
    rw [if_pos hgt, if_neg (by exact not_lt.mpr (le_of_lt hgt))]
    constructor
    · simp [Except.map]
    · simp [Except.map]

/-- C9 witness: on variable x with target 0, scale 7 and no offset, at the
position with x = 1 the Heaviside preset returns 7 and the
Reverse-Heaviside preset returns 0. -/
theorem claim_C9_witness :
    (((get_preset (fun q => q) ⟨1, "x", 0, some 7, none, none⟩).map (fun f => f 0 0 1)
          = some (.ok 7)) ∧
        ((get_preset (fun q => q) ⟨2, "x", 0, some 7, none, none⟩).map (fun f => f 0 0 1)
          = some (.ok 0))) ∨
    (((get_preset (fun q => q) ⟨1, "x", 0, some 7, none, none⟩).map (fun f => f 0 0 1)
          = some (.ok 0)) ∧
        ((get_preset (fun q => q) ⟨2, "x", 0, some 7, none, none⟩).map (fun f => f 0 0 1)
          = some (.ok 7))) :=
  claim_C9_heaviside_complementary (fun q => q) ("x") 0 7 none 0 0 1 1 rfl (by norm_num)

/-- C10: a preset configuration whose func code is outside 0, 1, 2 makes
get_preset fall off its if/elif chain and return None without raising; a
variable name outside the seven recognized ones makes get_variable return
None; and a preset with a recognized func code but an unrecognized
variable name still builds successfully (get_preset returns a closure) and
only raises, with a TypeError from calling None, when that closure is
first evaluated at a position.  The final conjunct exhibits concrete
instances of all three behaviors. -/
theorem claim_C10_invalid_codes_deferred :
    (∀ (sq : ℚ → ℚ) (cfg : DensityCfg), cfg.func ≠ 0 → cfg.func ≠ 1 → cfg.func ≠ 2 →
        get_preset sq cfg = none) ∧
    (∀ (sq : ℚ → ℚ) (varName : String),
        varName ∉ (["x", "y", "z", "r", "rc", "theta", "phi"] : List String) →
        get_variable sq varName = none) ∧
    (∀ (sq : ℚ → ℚ) (cfg : DensityCfg) (z y x : ℚ),
        (cfg.func = 0 ∨ cfg.func = 1 ∨ cfg.func = 2) → get_variable sq cfg.var = none →
        (get_preset sq cfg).map (fun f => f z y x) = some (.error .typeError)) ∧
    (get_preset (fun q => q) ⟨5, "x", 0, none, none, none⟩ = none ∧
      get_variable (fun q => q) ("w") = none ∧
      (get_preset (fun q => q) ⟨0, "w", 0, none, none, none⟩).map (fun f => f 0 0 0)
        = some (.error .typeError)) := by
  refine ⟨?_, ?_, ?_, ?_, ?_, ?_⟩
  · intro sq cfg h0 h1 h2
    simp [get_preset, PRESET_DELTA, PRESET_HEAVISIDE, PRESET_REVERSE_HEAVISIDE, h0, h1, h2]
  · intro sq varName hv
    simp only [List.mem_cons, List.not_mem_nil, or_false] at hv
    push_neg at hv
    obtain ⟨h1, h2, h3, h4, h5, h6, h7⟩ := hv
    simp [get_variable, h1, h2, h3, h4, h5, h6, h7]
  · intro sq cfg z y x hfunc hvar
    have hvco : call_opt (offset_var (get_variable sq cfg.var) cfg.offset) z y x
        = .error .typeError := by
      rw [hvar]
      cases cfg.offset with
      | none => rfl
      | some o => rfl
    rcases hfunc with h | h | h
    · simp [get_preset, PRESET_DELTA, h, delta, hvco, Except.map]
    · simp [get_preset, PRESET_DELTA, PRESET_HEAVISIDE, PRESET_REVERSE_HEAVISIDE, h,
        heaviside, hvco, Except.map]
    · simp [get_preset, PRESET_DELTA, PRESET_HEAVISIDE, PRESET_REVERSE_HEAVISIDE, h,
        heaviside, hvco, Except.map]
  · norm_num [get_preset, PRESET_DELTA, PRESET_HEAVISIDE, PRESET_REVERSE_HEAVISIDE]
  · rfl
  · rfl
